import Mathlib

/-!
Shallow embedding of the chess engine in `ChessEngine.py` (classes
`CastlingRights`, `Move`, `GameState`).

Conventions of the embedding:
* a Python piece string such as `"wP"` is modelled as the list of its
  characters `['w', 'P']`; the empty square `"--"` is `['-', '-']`;
  `s[0]` / `s[1]` become `sq0` / `sq1`;
* the mutable 8x8 board (a Python list of lists) is a `List (List Sq)`;
  Python list indexing (which accepts negative indices and raises
  `IndexError` out of range) is modelled by `pyListGet` / `pyListSet`
  (the out-of-range `IndexError` case returns a default value; every
  claim below only evaluates the code on in-range accesses, which the
  source guards);
* the mutable `GameState` object is threaded explicitly: every method
  that assigns to `self` becomes a function returning an updated
  `GameState` (or the updated component it writes);
* the blocking `input()` call inside `GameState.make_move` is modelled
  by an explicit `stdin_line` argument holding the line the prompt
  would read;
* integer coordinates are `Int` (Python ints); the float arithmetic in
  `Move.move_id` (`1e3` etc.) is exact on the 0..7 digit range used by
  the program, so it is modelled by integer arithmetic.
-/

/-- Python list read `l[i]`: non-negative index, negative (wrap-around)
index, or `IndexError` (modelled by the default `dflt`). -/
def pyListGet {α : Type} (l : List α) (i : Int) (dflt : α) : α :=
  if 0 ≤ i ∧ i < (l.length : Int) then l.getD i.toNat dflt
  else if -(l.length : Int) ≤ i ∧ i < 0 then l.getD (i + l.length).toNat dflt
  else dflt

/-- Python list write `l[i] = v` (same index discipline as `pyListGet`;
the out-of-range `IndexError` case leaves the list unchanged). -/
def pyListSet {α : Type} (l : List α) (i : Int) (v : α) : List α :=
  if 0 ≤ i ∧ i < (l.length : Int) then l.set i.toNat v
  else if -(l.length : Int) ≤ i ∧ i < 0 then l.set (i + l.length).toNat v
  else l

/-- A board square: the character list of the Python piece string. -/
abbrev Sq := List Char

/-- The empty square `"--"`. -/
def empty_square : Sq := ['-', '-']

/-- `s[0]` of a piece string (default for the unreachable empty case). -/
def sq0 (s : Sq) : Char := s.getD 0 ' '

/-- `s[1]` of a piece string (default for the unreachable short case). -/
def sq1 (s : Sq) : Char := s.getD 1 ' '

/-- The 8x8 grid `self.board`. -/
abbrev Board := List (List Sq)

/-- `self.board[r][c]`. -/
def board_get (b : Board) (r c : Int) : Sq :=
  pyListGet (pyListGet b r []) c []

/-- `self.board[r][c] = v`. -/
def board_set (b : Board) (r c : Int) (v : Sq) : Board :=
  pyListSet b r (pyListSet (pyListGet b r []) c v)

/-- `self.knight_dirs` (8 L-shape directions, source order). -/
def knight_dirs : List (Int × Int) :=
  [(-2, -1), (-2, 1), (-1, -2), (-1, 2), (1, -2), (1, 2), (2, -1), (2, 1)]

/-- `self.bishop_dirs` (4 diagonal directions, source order). -/
def bishop_dirs : List (Int × Int) :=
  [(-1, -1), (-1, 1), (1, -1), (1, 1)]

/-- `self.rook_dirs` (4 orthogonal directions, source order). -/
def rook_dirs : List (Int × Int) :=
  [(-1, 0), (0, -1), (1, 0), (0, 1)]

/-- `self.king_dirs` (all 8 directions, source order). -/
def king_dirs : List (Int × Int) :=
  [(-1, 0), (0, -1), (1, 0), (0, 1), (-1, -1), (-1, 1), (1, -1), (1, 1)]

/-- The `CastlingRights` class: four booleans `wks`, `bks`, `wqs`, `bqs`. -/
structure CastlingRights where
  wks : Bool
  bks : Bool
  wqs : Bool
  bqs : Bool
deriving DecidableEq

/-- A pin entry `(row, col, dir_row, dir_col)` as appended by
`search_for_pins_and_checks`. -/
abbrev Pin := Int × Int × Int × Int

/-- A check entry `(row, col, dir_row, dir_col)` as appended by
`search_for_pins_and_checks`. -/
abbrev Check := Int × Int × Int × Int

/-- The `Move` class.  The Python object also aliases the live board
(`self.board`), used only by the notation method `get_pgn`, which no
claim concerns; the remaining fields are snapshots taken in
`Move.__init__` and are modelled here. -/
structure Move where
  start_r : Int
  start_c : Int
  end_r : Int
  end_c : Int
  piece_moved : Sq
  piece_captured : Sq
  is_pawn_promotion : Bool
  is_en_passant : Bool
  is_castling : Bool
deriving DecidableEq

/-- `Move.__init__(start_square, end_square, b, is_pawn_promotion,
is_en_passant, is_castling)`: `piece_moved` / `piece_captured` are read
from the board `b`; an en-passant move overwrites `piece_captured` with
the enemy pawn. -/
def Move.make (start_square end_square : Int × Int) (b : Board)
    (is_pawn_promotion is_en_passant is_castling : Bool) : Move :=
  let pm := board_get b start_square.1 start_square.2
  let pc := board_get b end_square.1 end_square.2
  let pc := if is_en_passant then
      (if pm == ['w', 'P'] then ['b', 'P'] else ['w', 'P']) else pc
  { start_r := start_square.1, start_c := start_square.2
    end_r := end_square.1, end_c := end_square.2
    piece_moved := pm, piece_captured := pc
    is_pawn_promotion := is_pawn_promotion
    is_en_passant := is_en_passant
    is_castling := is_castling }

/-- `self.move_id = int(start_r*1e3 + start_c*1e2 + end_r*1e1 + end_c)`.
All digits are 0..7 in the program, so the float arithmetic is exact
and equals this integer expression. -/
def Move.move_id (m : Move) : Int :=
  m.start_r * 1000 + m.start_c * 100 + m.end_r * 10 + m.end_c

/-- `Move.__eq__` when the other operand is a `Move`: compares
`move_id` only. -/
def moveEq (m other : Move) : Bool :=
  m.move_id == other.move_id

/-- All four coordinates of a move are on the board (the documented
domain of `move_id`: "each digit of which can be 0 through 7"). -/
def Move.onBoard (m : Move) : Prop :=
  0 ≤ m.start_r ∧ m.start_r < 8 ∧ 0 ≤ m.start_c ∧ m.start_c < 8 ∧
  0 ≤ m.end_r ∧ m.end_r < 8 ∧ 0 ≤ m.end_c ∧ m.end_c < 8

instance (m : Move) : Decidable m.onBoard := by
  unfold Move.onBoard; infer_instance

/-- The `GameState` fields assigned in `GameState.__init__` (the
direction tuples and the `move_functions` dispatch table are per-class
constants, kept as the global definitions above). -/
structure GameState where
  board : Board
  white_to_move : Bool
  move_log : List Move
  white_king_location : Int × Int
  black_king_location : Int × Int
  current_player_is_in_check : Bool
  checks : List Check
  pins : List Pin
  checkmate : Bool
  stalemate : Bool
  en_passant_possible : Option (Int × Int)
  current_castling_rights : CastlingRights
  castling_rights_log : List CastlingRights
deriving DecidableEq

/-- The starting board of `GameState.__init__`. -/
def initial_board : Board :=
  [[['b','R'], ['b','N'], ['b','B'], ['b','Q'], ['b','K'], ['b','B'], ['b','N'], ['b','R']],
   [['b','P'], ['b','P'], ['b','P'], ['b','P'], ['b','P'], ['b','P'], ['b','P'], ['b','P']],
   [['-','-'], ['-','-'], ['-','-'], ['-','-'], ['-','-'], ['-','-'], ['-','-'], ['-','-']],
   [['-','-'], ['-','-'], ['-','-'], ['-','-'], ['-','-'], ['-','-'], ['-','-'], ['-','-']],
   [['-','-'], ['-','-'], ['-','-'], ['-','-'], ['-','-'], ['-','-'], ['-','-'], ['-','-']],
   [['-','-'], ['-','-'], ['-','-'], ['-','-'], ['-','-'], ['-','-'], ['-','-'], ['-','-']],
   [['w','P'], ['w','P'], ['w','P'], ['w','P'], ['w','P'], ['w','P'], ['w','P'], ['w','P']],
   [['w','R'], ['w','N'], ['w','B'], ['w','Q'], ['w','K'], ['w','B'], ['w','N'], ['w','R']]]

/-- `GameState.__init__`: the new-game position. -/
def initial_game_state : GameState :=
  { board := initial_board
    white_to_move := true
    move_log := []
    white_king_location := (7, 4)
    black_king_location := (0, 4)
    current_player_is_in_check := false
    checks := []
    pins := []
    checkmate := false
    stalemate := false
    en_passant_possible := none
    current_castling_rights := ⟨true, true, true, true⟩
    castling_rights_log := [⟨true, true, true, true⟩] }

/-- One ray of the pin/check scan of `search_for_pins_and_checks`:
direction index `j`, direction `(dr, dc)`, distance loop
`range(1, 8)` (`fuel` = iterations left, `dist` = current distance).
Returns the (at most one) pin and (at most one) check the ray appends.
An ally piece becomes the candidate pin (a second one kills the ray);
an enemy piece checks the five attack possibilities of the source. -/
def pin_check_ray (b : Board) (ally_color enemy_color : Char)
    (king_r king_c dr dc : Int) (j : Nat) (possible_pin : Option Pin)
    (dist : Int) : Nat → List Pin × List Check
  | 0 => ([], [])
  | fuel + 1 =>
    let test_r := king_r + dr * dist
    let test_c := king_c + dc * dist
    if 0 ≤ test_r ∧ test_r < 8 ∧ 0 ≤ test_c ∧ test_c < 8 then
      let test_piece := board_get b test_r test_c
      if sq0 test_piece = ally_color then
        match possible_pin with
        | none =>
          pin_check_ray b ally_color enemy_color king_r king_c dr dc j
            (some (test_r, test_c, dr, dc)) (dist + 1) fuel
        | some _ => ([], [])
      else if sq0 test_piece = enemy_color then
        let piece_type := sq1 test_piece
        if (j ≤ 3 ∧ piece_type = 'R')
            ∨ (4 ≤ j ∧ j ≤ 7 ∧ piece_type = 'B')
            ∨ (dist = 1 ∧ piece_type = 'P'
               ∧ ((enemy_color = 'w' ∧ 6 ≤ j ∧ j ≤ 7)
                  ∨ (enemy_color = 'b' ∧ 4 ≤ j ∧ j ≤ 5)))
            ∨ piece_type = 'Q'
            ∨ (dist = 1 ∧ piece_type = 'K') then
          match possible_pin with
          | none => ([], [(test_r, test_c, dr, dc)])
          | some pp => ([pp], [])
        else ([], [])
      else
        pin_check_ray b ally_color enemy_color king_r king_c dr dc j
          possible_pin (dist + 1) fuel
    else ([], [])

/-- `GameState.search_for_pins_and_checks`: scans the 8 king
directions from the current player's king, then the 8 knight offsets.
The source sets `current_player_is_in_check = True` exactly when it
appends a check, so the returned flag is "the check list is
non-empty". -/
def search_for_pins_and_checks (gs : GameState) : Bool × List Pin × List Check :=
  let enemy_color := if gs.white_to_move then 'b' else 'w'
  let ally_color := if gs.white_to_move then 'w' else 'b'
  let king_r := if gs.white_to_move then gs.white_king_location.1
                else gs.black_king_location.1
  let king_c := if gs.white_to_move then gs.white_king_location.2
                else gs.black_king_location.2
  let scan := (List.range 8).foldl (fun (st : List Pin × List Check) (j : Nat) =>
    let dir_j := pyListGet king_dirs (j : Int) (0, 0)
    let (ps, cs) := pin_check_ray gs.board ally_color enemy_color
      king_r king_c dir_j.1 dir_j.2 j none 1 7
    (st.1 ++ ps, st.2 ++ cs)) ([], [])
  let checks := knight_dirs.foldl (fun (cs : List Check) dir_j =>
    let end_r := king_r + dir_j.1
    let end_c := king_c + dir_j.2
    if 0 ≤ end_r ∧ end_r < 8 ∧ 0 ≤ end_c ∧ end_c < 8 then
      let end_piece := board_get gs.board end_r end_c
      if sq0 end_piece = enemy_color ∧ sq1 end_piece = 'N' then
        cs ++ [(end_r, end_c, dir_j.1, dir_j.2)]
      else cs
    else cs) scan.2
  (!checks.isEmpty, scan.1, checks)

/-- One ray of `GameState.search_for_attacks`: distance loop
`range(1, len(self.board))`.  Ally piece: blocked; enemy piece: the
five attack possibilities decide; empty: keep walking. -/
def attack_ray (b : Board) (ally_c enemy_c : Char) (r c dr dc : Int)
    (j : Nat) (dist : Int) : Nat → Bool
  | 0 => false
  | fuel + 1 =>
    let end_r := r + dr * dist
    let end_c := c + dc * dist
    if 0 ≤ end_r ∧ end_r < (b.length : Int)
        ∧ 0 ≤ end_c ∧ end_c < (b.length : Int) then
      let end_piece := board_get b end_r end_c
      if sq0 end_piece = ally_c then false
      else if sq0 end_piece = enemy_c then
        let enemy_piece_type := sq1 end_piece
        if (j ≤ 3 ∧ enemy_piece_type = 'R')
            ∨ (4 ≤ j ∧ j ≤ 7 ∧ enemy_piece_type = 'B')
            ∨ (dist = 1 ∧ enemy_piece_type = 'P'
               ∧ ((enemy_c = 'w' ∧ 6 ≤ j ∧ j ≤ 7)
                  ∨ (enemy_c = 'b' ∧ 4 ≤ j ∧ j ≤ 5)))
            ∨ enemy_piece_type = 'Q'
            ∨ (dist = 1 ∧ enemy_piece_type = 'K') then true
        else false
      else attack_ray b ally_c enemy_c r c dr dc j (dist + 1) fuel
    else false

/-- `GameState.search_for_attacks(r, c, enemy_c)`: `True` when some
enemy piece attacks square `(r, c)` (note the source docstring states
the opposite convention from what the body implements; the body is
modelled). -/
def search_for_attacks (gs : GameState) (r c : Int) (enemy_c : Char) : Bool :=
  let ally_c := if enemy_c = 'b' then 'w' else 'b'
  let ray_hit := (List.range 8).foldl (fun (hit : Bool) (j : Nat) =>
    hit || (let dir_j := pyListGet king_dirs (j : Int) (0, 0)
            attack_ray gs.board ally_c enemy_c r c dir_j.1 dir_j.2 j 1
              (gs.board.length - 1))) false
  let knight_hit := knight_dirs.foldl (fun hit dir_j =>
    hit || (let end_r := r + dir_j.1
            let end_c := c + dir_j.2
            if 0 ≤ end_r ∧ end_r < (gs.board.length : Int)
                ∧ 0 ≤ end_c
                ∧ end_c < ((pyListGet gs.board end_r []).length : Int) then
              let end_piece := board_get gs.board end_r end_c
              sq0 end_piece == enemy_c && sq1 end_piece == 'N'
            else false)) false
  ray_hit || knight_hit

/-- The row-major enumeration of the board squares together with the
parity key `r + c`, shared by the two scans of
`search_for_material_stalemate` (`for r in range(8): for c in
range(8)`). -/
def board_cells (b : Board) : List (Int × Sq) :=
  ((List.range 8).map (fun (r : Nat) =>
    (List.range 8).map (fun (c : Nat) =>
      ((r : Int) + (c : Int), board_get b (r : Int) (c : Int))))).flatten

/-- The active-piece filter of `search_for_material_stalemate`:
neither a king nor an empty square. -/
def is_active_square (s : Sq) : Bool :=
  !(sq1 s == 'K' || s == empty_square)

/-- `active_pieces` as collected by `search_for_material_stalemate`
(row-major order). -/
def active_pieces (b : Board) : List Sq :=
  ((board_cells b).filter (fun x => is_active_square x.2)).map (·.2)

/-- The bishop test `self.board[r][c][1] == "B"` of the parity scan in
`search_for_material_stalemate`, on an enumerated cell. -/
def is_bishop_cell (z : Int × Sq) : Bool :=
  sq1 z.2 == 'B'

/-- One step of the bishop-parity scan of
`search_for_material_stalemate`: state `(parity_1st_bishop,
first_bishop_found, parity_2nd_bishop)`; the first bishop found sets
the first parity, every later bishop overwrites the second. -/
def bishop_parity_step (st : Int × Bool × Int) (x : Int × Sq) :
    Int × Bool × Int :=
  if is_bishop_cell x then
    (if st.2.1 then (st.1, true, x.1) else (x.1, true, st.2.2))
  else st

/-- The bishop-parity scan of `search_for_material_stalemate`
(row-major board loop, initial state `(0, False, 0)`). -/
def bishop_parity_scan (b : Board) : Int × Bool × Int :=
  (board_cells b).foldl bishop_parity_step (0, false, 0)

/-- `GameState.search_for_material_stalemate` (reads `self.board`
only). -/
def search_for_material_stalemate (gs : GameState) : Bool :=
  let aps := active_pieces gs.board
  if aps.length = 0 then true
  else if aps.length = 1 then
    let active_piece := aps.getD 0 []
    sq1 active_piece == 'N' || sq1 active_piece == 'B'
  else if aps.length = 2 then
    if aps.all (· == ['b', 'B']) || aps.all (· == ['w', 'B']) then
      let st := bishop_parity_scan gs.board
      (st.1 + st.2.2) % 2 == 0
    else if aps.all (fun j => sq1 j == 'B')
        && (aps.any (fun j => sq0 j == 'w') && aps.any (fun j => sq0 j == 'b')) then
      true
    else if aps.all (· == ['w', 'N']) || aps.all (· == ['b', 'N']) then
      true
    else false
  else false

/-- `GameState.update_castling_rights(m)`: clears rights when a king or
rook moves from (or a rook is captured on) its home square.  Only
`self.current_castling_rights` is written; the board is read for
`len(self.board)` only. -/
def update_castling_rights (b : Board) (cr : CastlingRights) (m : Move) :
    CastlingRights :=
  let cr :=
    if m.piece_moved == ['w', 'K'] then { cr with wks := false, wqs := false }
    else if m.piece_moved == ['b', 'K'] then { cr with bks := false, bqs := false }
    else if m.piece_moved == ['w', 'R'] then
      (if m.start_r = 7 then
        (if m.start_c = 0 then { cr with wqs := false }
         else if m.start_c = 7 then { cr with wks := false }
         else cr)
       else cr)
    else if m.piece_moved == ['b', 'R'] then
      (if m.start_r = 0 then
        (if m.start_c = 0 then { cr with bqs := false }
         else if m.start_c = 7 then { cr with bks := false }
         else cr)
       else cr)
    else cr
  if m.piece_captured == ['w', 'R'] then
    (if m.end_r = (b.length : Int) - 1 then
      (if m.end_c = 0 then { cr with wqs := false }
       else if m.end_c = (b.length : Int) - 1 then { cr with wks := false }
       else cr)
     else cr)
  else if m.piece_captured == ['b', 'R'] then
    (if m.end_r = 0 then
      (if m.end_c = 0 then { cr with bqs := false }
       else if m.end_c = (b.length : Int) - 1 then { cr with bks := false }
       else cr)
     else cr)
  else cr

/-- `GameState.make_move(m)`.  `stdin_line` models the line that the
blocking `input("Please choose 'Q', 'R', 'B', or 'N': ")` prompt inside
the pawn-promotion branch reads from standard input (the source calls
`.upper()` on it and substitutes `"Q"` for an empty line). -/
def make_move (gs : GameState) (m : Move) (stdin_line : List Char) : GameState :=
  let b := board_set gs.board m.start_r m.start_c empty_square
  let b := board_set b m.end_r m.end_c m.piece_moved
  let move_log := gs.move_log ++ [m]
  let white_to_move := !gs.white_to_move
  let white_king_location :=
    if m.piece_moved == ['w', 'K'] then (m.end_r, m.end_c)
    else gs.white_king_location
  let black_king_location :=
    if m.piece_moved == ['b', 'K'] then (m.end_r, m.end_c)
    else gs.black_king_location
  let en_passant_possible :=
    if sq1 m.piece_moved = 'P' ∧ (m.start_r - m.end_r).natAbs = 2 then
      some ((m.start_r + m.end_r) / 2, m.end_c)
    else none
  let b := if m.is_en_passant then board_set b m.start_r m.end_c empty_square
           else b
  let b :=
    if m.is_pawn_promotion then
      let promoted_piece := stdin_line.map Char.toUpper
      let promoted_piece := if promoted_piece == [] then ['Q'] else promoted_piece
      board_set b m.end_r m.end_c (sq0 m.piece_moved :: promoted_piece)
    else b
  let b :=
    if m.is_castling then
      (if m.end_c - m.start_c = 2 then
        let b := board_set b m.end_r (m.end_c - 1)
          (board_get b m.end_r (m.end_c + 1))
        board_set b m.end_r (m.end_c + 1) empty_square
      else
        let b := board_set b m.end_r (m.end_c + 1)
          (board_get b m.end_r (m.end_c - 2))
        board_set b m.end_r (m.end_c - 2) empty_square)
    else b
  let current_castling_rights :=
    update_castling_rights b gs.current_castling_rights m
  let castling_rights_log :=
    gs.castling_rights_log ++
      [{ wks := current_castling_rights.wks, bks := current_castling_rights.bks
         wqs := current_castling_rights.wqs, bqs := current_castling_rights.bqs }]
  { gs with
    board := b, move_log := move_log, white_to_move := white_to_move
    white_king_location := white_king_location
    black_king_location := black_king_location
    en_passant_possible := en_passant_possible
    current_castling_rights := current_castling_rights
    castling_rights_log := castling_rights_log }

/-- `GameState.undo_move()`: pops the last move when the log is
non-empty and reverses it; with an empty log nothing happens. -/
def undo_move (gs : GameState) : GameState :=
  match gs.move_log.getLast? with
  | none => gs
  | some m =>
    let move_log := gs.move_log.dropLast
    let b := board_set gs.board m.start_r m.start_c m.piece_moved
    let b := board_set b m.end_r m.end_c m.piece_captured
    let white_to_move := !gs.white_to_move
    let white_king_location :=
      if m.piece_moved == ['w', 'K'] then (m.start_r, m.start_c)
      else gs.white_king_location
    let black_king_location :=
      if m.piece_moved == ['b', 'K'] then (m.start_r, m.start_c)
      else gs.black_king_location
    let (b, en_passant_possible) :=
      if m.is_en_passant then
        let b := board_set b m.end_r m.end_c empty_square
        let b := board_set b m.start_r m.end_c m.piece_captured
        (b, some (m.end_r, m.end_c))
      else (b, gs.en_passant_possible)
    let en_passant_possible :=
      if sq1 m.piece_moved = 'P' ∧ (m.start_r - m.end_r).natAbs = 2 then none
      else en_passant_possible
    let castling_rights_log := gs.castling_rights_log.dropLast
    let ccr := castling_rights_log.getLastD ⟨true, true, true, true⟩
    let current_castling_rights : CastlingRights :=
      { wks := ccr.wks, wqs := ccr.wqs, bks := ccr.bks, bqs := ccr.bqs }
    let b :=
      if m.is_castling then
        (if m.end_c - m.start_c = 2 then
          let b := board_set b m.end_r (m.end_c + 1)
            (board_get b m.end_r (m.end_c - 1))
          board_set b m.end_r (m.end_c - 1) empty_square
        else
          let b := board_set b m.end_r (m.end_c - 2)
            (board_get b m.end_r (m.end_c + 1))
          board_set b m.end_r (m.end_c + 1) empty_square)
      else b
    { gs with
      board := b, move_log := move_log, white_to_move := white_to_move
      white_king_location := white_king_location
      black_king_location := black_king_location
      en_passant_possible := en_passant_possible
      current_castling_rights := current_castling_rights
      castling_rights_log := castling_rights_log }

/-- The pin lookup each generator performs: steps through `self.pins`
backwards (`range(len(pins)-1, -1, -1)`), breaks at the first entry
whose square matches `(r, c)`, and removes it with
`self.pins.remove(...)` (which deletes the first equal entry from the
front).  Returns `(piece_pinned, pin_direction, remaining pins)`. -/
def find_pin (pins : List Pin) (r c : Int) :
    Bool × Option (Int × Int) × List Pin :=
  match pins.reverse.find? (fun p => p.1 == r && p.2.1 == c) with
  | some p => (true, some (p.2.2.1, p.2.2.2), pins.erase p)
  | none => (false, none, pins)

/-- `GameState.get_pawn_moves(r, c, moves)` (pins are threaded
explicitly; `pawn_promotion` is the function-local flag the source
carries across the advance and capture sections). -/
def get_pawn_moves (gs : GameState) (pins : List Pin) (r c : Int)
    (moves : List Move) : List Pin × List Move :=
  let (piece_pinned, pin_direction, pins) := find_pin pins r c
  let move_amount : Int := if gs.white_to_move then -1 else 1
  let start_r : Int := if gs.white_to_move then 6 else 1
  let promo_r : Int := if gs.white_to_move then 0 else 7
  let enemy_c : Char := if gs.white_to_move then 'b' else 'w'
  let pawn_promotion := false
  -- ADVANCE
  let (pawn_promotion, moves) :=
    if board_get gs.board (r + move_amount) c == empty_square then
      (if (!piece_pinned) || pin_direction == some (move_amount, 0) then
        let pawn_promotion := if r + move_amount = promo_r then true
                              else pawn_promotion
        let moves := moves ++
          [Move.make (r, c) (r + move_amount, c) gs.board pawn_promotion
            false false]
        let moves :=
          if r = start_r
              ∧ board_get gs.board (r + 2 * move_amount) c == empty_square then
            moves ++ [Move.make (r, c) (r + 2 * move_amount, c) gs.board
              false false false]
          else moves
        (pawn_promotion, moves)
      else (pawn_promotion, moves))
    else (pawn_promotion, moves)
  -- LEFT-capture
  let (pawn_promotion, moves) :=
    if c - 1 ≥ 0 then
      (if (!piece_pinned) || pin_direction == some (move_amount, -1) then
        let (pawn_promotion, moves) :=
          if sq0 (board_get gs.board (r + move_amount) (c - 1)) = enemy_c then
            let pawn_promotion := if r + move_amount = promo_r then true
                                  else pawn_promotion
            (pawn_promotion, moves ++
              [Move.make (r, c) (r + move_amount, c - 1) gs.board
                pawn_promotion false false])
          else (pawn_promotion, moves)
        let moves :=
          if gs.en_passant_possible == some (r + move_amount, c - 1) then
            moves ++ [Move.make (r, c) (r + move_amount, c - 1) gs.board
              false true false]
          else moves
        (pawn_promotion, moves)
      else (pawn_promotion, moves))
    else (pawn_promotion, moves)
  -- RIGHT-capture
  let moves :=
    if c + 1 ≤ (gs.board.length : Int) - 1 then
      (if (!piece_pinned) || pin_direction == some (move_amount, 1) then
        let (pawn_promotion, moves) :=
          if sq0 (board_get gs.board (r + move_amount) (c + 1)) = enemy_c then
            let pawn_promotion := if r + move_amount = promo_r then true
                                  else pawn_promotion
            (pawn_promotion, moves ++
              [Move.make (r, c) (r + move_amount, c + 1) gs.board
                pawn_promotion false false])
          else (pawn_promotion, moves)
        let moves :=
          if gs.en_passant_possible == some (r + move_amount, c + 1) then
            moves ++ [Move.make (r, c) (r + move_amount, c + 1) gs.board
              false true false]
          else moves
        moves
      else moves)
    else moves
  (pins, moves)

/-- `GameState.get_knight_moves(r, c, moves)`. -/
def get_knight_moves (gs : GameState) (pins : List Pin) (r c : Int)
    (moves : List Move) : List Pin × List Move :=
  let (piece_pinned, _, pins) := find_pin pins r c
  let ally_c : Char := if gs.white_to_move then 'w' else 'b'
  let moves := knight_dirs.foldl (fun (moves : List Move) dir_j =>
    let end_r := r + dir_j.1
    let end_c := c + dir_j.2
    if 0 ≤ end_r ∧ end_r < 8 ∧ 0 ≤ end_c ∧ end_c < 8 then
      (if !piece_pinned then
        let end_piece := board_get gs.board end_r end_c
        if !(sq0 end_piece == ally_c) then
          moves ++ [Move.make (r, c) (end_r, end_c) gs.board false false false]
        else moves
      else moves)
    else moves) moves
  (pins, moves)

/-- One direction of the sliding-piece loops in `get_bishop_moves`,
`get_rook_moves` and `get_queen_moves`: distance loop `range(1, 8)`.
`allowed` is the per-direction pin test `(not piece_pinned) or
(pin_direction == dir) or (pin_direction == (-dir))`; when it is false
the source's loop body does nothing and the loop keeps running to the
board edge, appending no move. -/
def slide_ray (b : Board) (enemy_c : Char) (r c dr dc : Int)
    (allowed : Bool) (moves : List Move) (dist : Int) : Nat → List Move
  | 0 => moves
  | fuel + 1 =>
    let end_r := r + dr * dist
    let end_c := c + dc * dist
    if 0 ≤ end_r ∧ end_r < 8 ∧ 0 ≤ end_c ∧ end_c < 8 then
      if allowed then
        let end_piece := board_get b end_r end_c
        if end_piece == empty_square then
          slide_ray b enemy_c r c dr dc allowed
            (moves ++ [Move.make (r, c) (end_r, end_c) b false false false])
            (dist + 1) fuel
        else if sq0 end_piece = enemy_c then
          moves ++ [Move.make (r, c) (end_r, end_c) b false false false]
        else moves
      else slide_ray b enemy_c r c dr dc allowed moves (dist + 1) fuel
    else moves

/-- `GameState.get_bishop_moves(r, c, moves)`. -/
def get_bishop_moves (gs : GameState) (pins : List Pin) (r c : Int)
    (moves : List Move) : List Pin × List Move :=
  let (piece_pinned, pin_direction, pins) := find_pin pins r c
  let enemy_c : Char := if gs.white_to_move then 'b' else 'w'
  let moves := bishop_dirs.foldl (fun (moves : List Move) dir_j =>
    let allowed := (!piece_pinned) || pin_direction == some dir_j
      || pin_direction == some (-dir_j.1, -dir_j.2)
    slide_ray gs.board enemy_c r c dir_j.1 dir_j.2 allowed moves 1 7) moves
  (pins, moves)

/-- `GameState.get_rook_moves(r, c, moves)`. -/
def get_rook_moves (gs : GameState) (pins : List Pin) (r c : Int)
    (moves : List Move) : List Pin × List Move :=
  let (piece_pinned, pin_direction, pins) := find_pin pins r c
  let enemy_c : Char := if gs.white_to_move then 'b' else 'w'
  let moves := rook_dirs.foldl (fun (moves : List Move) dir_j =>
    let allowed := (!piece_pinned) || pin_direction == some dir_j
      || pin_direction == some (-dir_j.1, -dir_j.2)
    slide_ray gs.board enemy_c r c dir_j.1 dir_j.2 allowed moves 1 7) moves
  (pins, moves)

/-- `GameState.get_queen_moves(r, c, moves)` (the re-programmed
bishop/rook walk over all 8 `king_dirs`). -/
def get_queen_moves (gs : GameState) (pins : List Pin) (r c : Int)
    (moves : List Move) : List Pin × List Move :=
  let (piece_pinned, pin_direction, pins) := find_pin pins r c
  let enemy_c : Char := if gs.white_to_move then 'b' else 'w'
  let moves := king_dirs.foldl (fun (moves : List Move) dir_j =>
    let allowed := (!piece_pinned) || pin_direction == some dir_j
      || pin_direction == some (-dir_j.1, -dir_j.2)
    slide_ray gs.board enemy_c r c dir_j.1 dir_j.2 allowed moves 1 7) moves
  (pins, moves)

/-- `GameState.get_king_side_castling_moves(r, c, moves)`.  The attack
test is the source's `not (search_for_attacks(r, c+1) and
search_for_attacks(r, c+2))` — preserved verbatim. -/
def get_king_side_castling_moves (gs : GameState) (r c : Int)
    (moves : List Move) : List Move :=
  let ec : Char := if gs.white_to_move then 'b' else 'w'
  if board_get gs.board r (c + 1) == empty_square
      ∧ board_get gs.board r (c + 2) == empty_square then
    if !(search_for_attacks gs r (c + 1) ec
         && search_for_attacks gs r (c + 2) ec) then
      moves ++ [Move.make (r, c) (r, c + 2) gs.board false false true]
    else moves
  else moves

/-- `GameState.get_queen_side_castling_moves(r, c, moves)`.  The attack
test is the source's `not (search_for_attacks(r, c-1) and
search_for_attacks(r, c-2))` — preserved verbatim. -/
def get_queen_side_castling_moves (gs : GameState) (r c : Int)
    (moves : List Move) : List Move :=
  let ec : Char := if gs.white_to_move then 'b' else 'w'
  if board_get gs.board r (c - 1) == empty_square
      ∧ board_get gs.board r (c - 2) == empty_square
      ∧ board_get gs.board r (c - 3) == empty_square then
    if !(search_for_attacks gs r (c - 1) ec
         && search_for_attacks gs r (c - 2) ec) then
      moves ++ [Move.make (r, c) (r, c - 2) gs.board false false true]
    else moves
  else moves

/-- `GameState.get_castling_moves(r, c, moves)`: refuses to castle out
of check, then tries each side whose right is still set. -/
def get_castling_moves (gs : GameState) (r c : Int) (moves : List Move) :
    List Move :=
  let w := gs.white_to_move
  let ec : Char := if gs.white_to_move then 'b' else 'w'
  if (w && search_for_attacks gs gs.white_king_location.1
        gs.white_king_location.2 ec)
      || ((!w) && search_for_attacks gs gs.black_king_location.1
        gs.black_king_location.2 ec) then
    moves
  else
    let moves :=
      if (gs.white_to_move && gs.current_castling_rights.wks)
          || ((!gs.white_to_move) && gs.current_castling_rights.bks) then
        get_king_side_castling_moves gs r c moves
      else moves
    let moves :=
      if (gs.white_to_move && gs.current_castling_rights.wqs)
          || ((!gs.white_to_move) && gs.current_castling_rights.bqs) then
        get_queen_side_castling_moves gs r c moves
      else moves
    moves

/-- `GameState.get_king_moves(r, c, moves)`: for each candidate square
the king location cache is temporarily set to it, the pin/check
detector is re-run, and the move kept only if it reports no check; the
source then restores the cache, so the probe is modelled by running the
detector on a copy with the relocated cache.  Ends by appending the
castling moves. -/
def get_king_moves (gs : GameState) (r c : Int) (moves : List Move) :
    List Move :=
  let ally_c : Char := if gs.white_to_move then 'w' else 'b'
  let moves := king_dirs.foldl (fun (moves : List Move) dir_j =>
    let end_r := r + dir_j.1
    let end_c := c + dir_j.2
    if 0 ≤ end_r ∧ end_r < 8 ∧ 0 ≤ end_c ∧ end_c < 8 then
      let end_piece := board_get gs.board end_r end_c
      if !(sq0 end_piece == ally_c) then
        let gs_probe :=
          if ally_c = 'w' then { gs with white_king_location := (end_r, end_c) }
          else { gs with black_king_location := (end_r, end_c) }
        let (current_player_is_in_check, _, _) :=
          search_for_pins_and_checks gs_probe
        if !current_player_is_in_check then
          moves ++ [Move.make (r, c) (end_r, end_c) gs.board false false false]
        else moves
      else moves
    else moves) moves
  get_castling_moves gs r c moves

/-- The `move_functions` dispatch of `GameState.get_all_possible_moves`
(a lookup table from piece type to generator; a type outside the table
would raise `KeyError`, which cannot happen for pieces the program
places — modelled as a no-op). -/
def dispatch_move_function (gs : GameState) (piece_type : Char)
    (pins : List Pin) (r c : Int) (moves : List Move) :
    List Pin × List Move :=
  if piece_type = 'P' then get_pawn_moves gs pins r c moves
  else if piece_type = 'N' then get_knight_moves gs pins r c moves
  else if piece_type = 'B' then get_bishop_moves gs pins r c moves
  else if piece_type = 'R' then get_rook_moves gs pins r c moves
  else if piece_type = 'Q' then get_queen_moves gs pins r c moves
  else if piece_type = 'K' then (pins, get_king_moves gs r c moves)
  else (pins, moves)

/-- `GameState.get_all_possible_moves()`: row-major sweep over the
board, dispatching on the piece type of every piece of the side to
move.  `self.pins` (consumed by the generators) is threaded. -/
def get_all_possible_moves (gs : GameState) (pins : List Pin) :
    List Pin × List Move :=
  (List.range 8).foldl (fun (st : List Pin × List Move) (r : Nat) =>
    (List.range 8).foldl (fun (st : List Pin × List Move) (c : Nat) =>
      let piece_color := sq0 (board_get gs.board (r : Int) (c : Int))
      if (gs.white_to_move ∧ piece_color = 'w')
          ∨ ((¬gs.white_to_move) ∧ piece_color = 'b') then
        let piece_type := sq1 (board_get gs.board (r : Int) (c : Int))
        dispatch_move_function gs piece_type st.1 (r : Int) (c : Int) st.2
      else st) st) (pins, [])

/-- The interposition-square loop of `get_all_valid_moves` (single
sliding check): appends `(king_r + d*dir, king_c + d*dir)` for
`d = 1, 2, ...` and stops after reaching the checking piece's square. -/
def build_valid_squares (king_r king_c dr dc check_r check_c : Int)
    (dist : Int) : Nat → List (Int × Int)
  | 0 => []
  | fuel + 1 =>
    let valid_square := (king_r + dist * dr, king_c + dist * dc)
    if valid_square.1 = check_r ∧ valid_square.2 = check_c then
      [valid_square]
    else valid_square ::
      build_valid_squares king_r king_c dr dc check_r check_c (dist + 1) fuel

/-- Python's `list.remove(m)` on a move list: deletes the first
element equal to `m` under `Move.__eq__` (`move_id` equality).  The
`ValueError` case (no equal element) cannot arise at the call site,
where `m` is drawn from the list itself. -/
def remove_first_eq (m : Move) : List Move → List Move
  | [] => []
  | x :: xs => if moveEq x m then xs else x :: remove_first_eq m xs

/-- One iteration of the backwards removal loop of
`get_all_valid_moves`: looks at `moves[j]` and removes it when it is a
non-king move whose destination is not a valid (blocking or capturing)
square. -/
def filter_check_step (valid_squares : List (Int × Int))
    (moves : List Move) (j : Nat) : List Move :=
  match moves.get? j with
  | none => moves
  | some m =>
    if sq1 m.piece_moved ≠ 'K'
        ∧ ¬((m.end_r, m.end_c) ∈ valid_squares) then
      remove_first_eq m moves
    else moves

/-- The backwards removal loop of `get_all_valid_moves`
(`for j in range(len(moves)-1, -1, -1)`), processing index `j` down
to 0. -/
def filter_check_moves (valid_squares : List (Int × Int))
    (moves : List Move) : Nat → List Move
  | 0 => filter_check_step valid_squares moves 0
  | jp + 1 =>
    filter_check_moves valid_squares
      (filter_check_step valid_squares moves (jp + 1)) jp

/-- The mate detection of `get_all_valid_moves`: an empty move list
sets checkmate or stalemate depending on the check flag, a non-empty
one clears both flags (`self.board` is unchanged throughout
`get_all_valid_moves`, so the material scan that follows reads the
original board). -/
def classify_mates (gs : GameState) (moves : List Move) : GameState :=
  if moves.length = 0 then
    (if gs.current_player_is_in_check then { gs with checkmate := true }
     else { gs with stalemate := true })
  else { gs with checkmate := false, stalemate := false }

/-- The assignment
`self.stalemate = self.search_for_material_stalemate()` closing
`get_all_valid_moves`. -/
def set_material_stalemate (gs : GameState) : GameState :=
  { gs with stalemate := search_for_material_stalemate gs }

/-- The tail of `get_all_valid_moves`: mate detection, the
material-stalemate assignment, and the override that empties the move
list when the stalemate flag was set. -/
def finish_valid_moves (gs : GameState) (moves : List Move) :
    GameState × List Move :=
  if (set_material_stalemate (classify_mates gs moves)).stalemate then
    (set_material_stalemate (classify_mates gs moves), [])
  else (set_material_stalemate (classify_mates gs moves), moves)

/-- `GameState.get_all_valid_moves()`: stores the detector results in
the state, branches on (number of) checks, filters non-resolving moves
under a single check, and classifies mates and material draws.
Returns the mutated state together with the move list. -/
def get_all_valid_moves (gs0 : GameState) : GameState × List Move :=
  let spc := search_for_pins_and_checks gs0
  let gs := { gs0 with current_player_is_in_check := spc.1,
                       pins := spc.2.1, checks := spc.2.2 }
  let king_r := if gs.white_to_move then gs.white_king_location.1
                else gs.black_king_location.1
  let king_c := if gs.white_to_move then gs.white_king_location.2
                else gs.black_king_location.2
  let pm :=
    if gs.current_player_is_in_check then
      (if gs.checks.length = 1 then
        let pm := get_all_possible_moves gs gs.pins
        let check_info := pyListGet gs.checks 0 (0, 0, 0, 0)
        let check_r := check_info.1
        let check_c := check_info.2.1
        let enemy_piece_applying_check := board_get gs.board check_r check_c
        let valid_squares :=
          if sq1 enemy_piece_applying_check = 'N' then [(check_r, check_c)]
          else build_valid_squares king_r king_c check_info.2.2.1
            check_info.2.2.2 check_r check_c 1 7
        (pm.1, filter_check_moves valid_squares pm.2 (pm.2.length - 1))
      else
        (gs.pins, get_king_moves gs king_r king_c []))
    else get_all_possible_moves gs gs.pins
  let gs := { gs with pins := pm.1 }
  finish_valid_moves gs pm.2

/-- An empty 8x8 board, used to build concrete test positions. -/
def blank_board : Board :=
  List.replicate 8 (List.replicate 8 (['-', '-'] : Sq))

/-- A `GameState` around a given board with the given side to move and
castling rights, no history and no en-passant target (concrete test
positions below). -/
def mk_game_state (b : Board) (white_to_move : Bool)
    (wk bk : Int × Int) (cr : CastlingRights) : GameState :=
  { board := b, white_to_move := white_to_move, move_log := []
    white_king_location := wk, black_king_location := bk
    current_player_is_in_check := false, checks := [], pins := []
    checkmate := false, stalemate := false, en_passant_possible := none
    current_castling_rights := cr, castling_rights_log := [cr] }

/-- C1 scenario, ply 1: the double pawn advance e2-e4. -/
def move_e2e4 : Move :=
  Move.make (6, 4) (4, 4) initial_game_state.board false false false

/-- C1 scenario: the position after 1. e4 (its en-passant target is the
square (5, 4)). -/
def position_after_e4 : GameState :=
  make_move initial_game_state move_e2e4 []

/-- C1 scenario, ply 2: the knight move g8-f6 (neither a double pawn
advance nor an en-passant capture). -/
def move_g8f6 : Move :=
  Move.make (0, 6) (2, 5) position_after_e4.board false false false

/-- C6 scenario, ply 1: f2-f4. -/
def c6_move1 : Move :=
  Move.make (6, 5) (4, 5) initial_game_state.board false false false

/-- C6 scenario after 1. f4. -/
def c6_pos1 : GameState := make_move initial_game_state c6_move1 []

/-- C6 scenario, ply 2: e7-e6. -/
def c6_move2 : Move := Move.make (1, 4) (2, 4) c6_pos1.board false false false

/-- C6 scenario after 1. f4 e6. -/
def c6_pos2 : GameState := make_move c6_pos1 c6_move2 []

/-- C6 scenario, ply 3: Ke1-f2. -/
def c6_move3 : Move := Move.make (7, 4) (6, 5) c6_pos2.board false false false

/-- C6 scenario after 1. f4 e6 2. Kf2. -/
def c6_pos3 : GameState := make_move c6_pos2 c6_move3 []

/-- C6 scenario, ply 4: Qd8-h4, giving check along the h4-e1
diagonal. -/
def c6_move4 : Move := Move.make (0, 3) (4, 7) c6_pos3.board false false false

/-- C6 scenario: the reachable position after 1. f4 e6 2. Kf2 Qh4+
(white to move, in check). -/
def c6_position : GameState := make_move c6_pos3 c6_move4 []

/-- C6 scenario: the king retreat Kf2-e1, moving away from the checking
queen along the very diagonal she attacks. -/
def c6_king_retreat : Move :=
  Move.make (6, 5) (7, 4) c6_position.board false false false

/-- C2 scenario board: white king e1 and rook h1 (king-side castling
ready), a black rook on g3 attacking the transit square g1 (and only
that one), black king on a8. -/
def c2_board : Board :=
  board_set (board_set (board_set (board_set blank_board
    7 4 ['w', 'K']) 7 7 ['w', 'R']) 5 6 ['b', 'R']) 0 0 ['b', 'K']

/-- C2 scenario position: white to move, white king-side right set. -/
def c2_position : GameState :=
  mk_game_state c2_board true (7, 4) (0, 0) ⟨true, false, false, false⟩

/-- C2 scenario: the king-side castling move e1-g1. -/
def c2_castle_move : Move := Move.make (7, 4) (7, 6) c2_board false false true

/-- C4 scenario board: the canonical king-versus-king-and-pawn
stalemate (black king a8, white pawn a7, white king b6). -/
def c4_board : Board :=
  board_set (board_set (board_set blank_board
    0 0 ['b', 'K']) 1 0 ['w', 'P']) 2 1 ['w', 'K']

/-- C4 scenario position: black to move, stalemated. -/
def c4_position : GameState :=
  mk_game_state c4_board false (2, 1) (0, 0) ⟨false, false, false, false⟩

/-- C3 scenario board: a white pawn on a7 about to promote. -/
def c3_board : Board :=
  board_set (board_set (board_set blank_board
    1 0 ['w', 'P']) 7 4 ['w', 'K']) 0 4 ['b', 'K']

/-- C3 scenario position. -/
def c3_position : GameState :=
  mk_game_state c3_board true (7, 4) (0, 4) ⟨false, false, false, false⟩

/-- C3 scenario: the promotion move a7-a8. -/
def c3_promotion_move : Move := Move.make (1, 0) (0, 0) c3_board true false false

/-- C5 counterexample board: three bishops of both colors (white c5 and
d4, black e3) with no other non-king material. -/
def c5_three_bishops_board : Board :=
  board_set (board_set (board_set (board_set (board_set blank_board
    0 4 ['b', 'K']) 7 4 ['w', 'K']) 3 3 ['w', 'B']) 4 4 ['w', 'B'])
    5 5 ['b', 'B']

/-- C5 witness board: king and knight versus king. -/
def c5_knight_board : Board :=
  board_set (board_set (board_set blank_board
    0 4 ['b', 'K']) 7 4 ['w', 'K']) 3 3 ['w', 'N']

/-- C5 witness position (white to move, legal moves would remain). -/
def c5_knight_position : GameState :=
  mk_game_state c5_knight_board true (7, 4) (0, 4) ⟨false, false, false, false⟩

/-- A board square token the program can place: the empty marker or a
color in `{w, b}` with a kind in `{P, N, B, R, Q, K}`. -/
def valid_square_token (s : Sq) : Bool :=
  s == empty_square ||
  (s.length == 2 && (sq0 s == 'w' || sq0 s == 'b') &&
   (sq1 s == 'P' || sq1 s == 'N' || sq1 s == 'B' || sq1 s == 'R'
    || sq1 s == 'Q' || sq1 s == 'K'))

/-- An 8x8 board every square of which holds a valid token. -/
def wf_board (b : Board) : Bool :=
  b.length == 8 && b.all (fun row => row.length == 8 && row.all valid_square_token)

/-- Modelled from the spec: "two bishops of the same color occupying
same-color squares (parity of (row+col) equal for both)" — the board
holds exactly two bishop squares and their `row+col` parities agree. -/
def same_square_color_bishops (b : Board) : Prop :=
  ∃ x y, (board_cells b).filter is_bishop_cell = [x, y]
    ∧ x.1 % 2 = y.1 % 2

/-- Modelled from the spec's draw cases, amended to the two-piece
bound the code enforces: the non-king material is empty, or a single
knight or bishop, or exactly two pieces that are two same-team bishops
on same-color squares, two bishops of opposite teams, or two same-team
knights. -/
def material_draw_spec (b : Board) : Prop :=
  active_pieces b = [] ∨
  (∃ p, active_pieces b = [p] ∧ (sq1 p = 'N' ∨ sq1 p = 'B')) ∨
  (∃ p q, active_pieces b = [p, q] ∧
    ((sq1 p = 'B' ∧ sq1 q = 'B' ∧ sq0 p = sq0 q ∧ same_square_color_bishops b)
     ∨ (sq1 p = 'B' ∧ sq1 q = 'B' ∧ sq0 p ≠ sq0 q)
     ∨ (sq1 p = 'N' ∧ sq1 q = 'N' ∧ sq0 p = sq0 q)))

/-- State-passing form of `search_for_pins_and_checks`: the method body
declares only local variables and contains no assignment to `self`, so
the state it returns is the receiver itself. -/
def search_for_pins_and_checks_stateful (gs : GameState) :
    GameState × (Bool × List Pin × List Check) :=
  (gs, search_for_pins_and_checks gs)

/-- C8: two `Move` instances with on-board coordinates are equal under
`Move.__eq__` iff their four coordinates agree, regardless of the
piece-moved, piece-captured, promotion, en-passant and castling
fields. -/
theorem C8_move_equality_coords_only (m1 m2 : Move)
    (h1 : m1.onBoard) (h2 : m2.onBoard) :
    moveEq m1 m2 = true ↔
      m1.start_r = m2.start_r ∧ m1.start_c = m2.start_c ∧
      m1.end_r = m2.end_r ∧ m1.end_c = m2.end_c := by
  obtain ⟨a1, a2, a3, a4, a5, a6, a7, a8⟩ := h1
  obtain ⟨b1, b2, b3, b4, b5, b6, b7, b8⟩ := h2
  simp only [moveEq, Move.move_id, beq_iff_eq]
  constructor
  · intro h
    refine ⟨?_, ?_, ?_, ?_⟩ <;> omega
  · rintro ⟨e1, e2, e3, e4⟩
    omega

/-- Witness for C8: two promotion moves with the same squares but
different promotion/capture fields compare equal. -/
theorem C8_move_equality_coords_only_witness :
    moveEq
      { start_r := 1, start_c := 0, end_r := 0, end_c := 0
        piece_moved := ['w','P'], piece_captured := ['-','-']
        is_pawn_promotion := true, is_en_passant := false
        is_castling := false }
      { start_r := 1, start_c := 0, end_r := 0, end_c := 0
        piece_moved := ['w','P'], piece_captured := ['b','N']
        is_pawn_promotion := false, is_en_passant := false
        is_castling := false } = true := by
  exact (C8_move_equality_coords_only _ _ (by decide) (by decide)).mpr
    ⟨rfl, rfl, rfl, rfl⟩

/-- C9: `undo_move` on a position whose move log is empty is a no-op:
the whole `GameState` (grid, side-to-move, king caches, castling rights
and rights log, en-passant target, move log) is returned unchanged. -/
theorem C9_undo_empty_log_noop (gs : GameState) (h : gs.move_log = []) :
    undo_move gs = gs := by
  unfold undo_move
  rw [h]; rfl

/-- Witness for C9 at the new-game position. -/
theorem C9_undo_empty_log_noop_witness :
    undo_move initial_game_state = initial_game_state :=
  C9_undo_empty_log_noop initial_game_state rfl

/-- C10: `search_for_pins_and_checks` mutates no field of the
`GameState`: it returns the `(in-check, pins, checks)` data while the
board grid, side-to-move, king caches, castling rights, both logs,
en-passant target and terminal flags are left exactly as before the
call. -/
theorem C10_detector_mutates_no_field (gs : GameState) :
    (search_for_pins_and_checks_stateful gs).1.board = gs.board ∧
    (search_for_pins_and_checks_stateful gs).1.white_to_move = gs.white_to_move ∧
    (search_for_pins_and_checks_stateful gs).1.move_log = gs.move_log ∧
    (search_for_pins_and_checks_stateful gs).1.white_king_location
      = gs.white_king_location ∧
    (search_for_pins_and_checks_stateful gs).1.black_king_location
      = gs.black_king_location ∧
    (search_for_pins_and_checks_stateful gs).1.current_player_is_in_check
      = gs.current_player_is_in_check ∧
    (search_for_pins_and_checks_stateful gs).1.checks = gs.checks ∧
    (search_for_pins_and_checks_stateful gs).1.pins = gs.pins ∧
    (search_for_pins_and_checks_stateful gs).1.checkmate = gs.checkmate ∧
    (search_for_pins_and_checks_stateful gs).1.stalemate = gs.stalemate ∧
    (search_for_pins_and_checks_stateful gs).1.en_passant_possible
      = gs.en_passant_possible ∧
    (search_for_pins_and_checks_stateful gs).1.current_castling_rights
      = gs.current_castling_rights ∧
    (search_for_pins_and_checks_stateful gs).1.castling_rights_log
      = gs.castling_rights_log ∧
    (search_for_pins_and_checks_stateful gs).2
      = search_for_pins_and_checks gs :=
  ⟨rfl, rfl, rfl, rfl, rfl, rfl, rfl, rfl, rfl, rfl, rfl, rfl, rfl, rfl⟩

set_option maxRecDepth 16000

set_option maxHeartbeats 2000000

/-- C1: the round trip fails on the code.  In the reachable position
after 1. e4 the en-passant target is (5, 4) and the reply Nf6 is in the
legal-move list; applying Nf6 with `make_move` and undoing it with
`undo_move` restores the grid, side to move, king caches and castling
rights, but leaves the en-passant target empty instead of (5, 4). -/
theorem C1_undo_does_not_restore_en_passant_target :
    move_e2e4 ∈ (get_all_valid_moves initial_game_state).2
    ∧ move_g8f6 ∈ (get_all_valid_moves position_after_e4).2
    ∧ position_after_e4.en_passant_possible = some (5, 4)
    ∧ (undo_move (make_move position_after_e4 move_g8f6 [])).en_passant_possible
        = none
    ∧ (undo_move (make_move position_after_e4 move_g8f6 [])).board
        = position_after_e4.board
    ∧ (undo_move (make_move position_after_e4 move_g8f6 [])).white_to_move
        = position_after_e4.white_to_move
    ∧ (undo_move (make_move position_after_e4 move_g8f6 [])).white_king_location
        = position_after_e4.white_king_location
    ∧ (undo_move (make_move position_after_e4 move_g8f6 [])).black_king_location
        = position_after_e4.black_king_location
    ∧ (undo_move (make_move position_after_e4 move_g8f6 [])).current_castling_rights
        = position_after_e4.current_castling_rights := by
  decide

/-- C2: the castling generator emits a castling move through an
attacked square.  In `c2_position` the king is not attacked, the
king-side right is set, f1 and g1 are empty, g1 is attacked by the
black rook (f1 is not) — and king-side castling is still generated,
both by the king-side generator and by `get_all_valid_moves`, because
the source tests `not (attacked(f1) and attacked(g1))` instead of
requiring both transit squares to be safe. -/
theorem C2_castles_through_attacked_square :
    search_for_attacks c2_position 7 4 'b' = false
    ∧ c2_position.current_castling_rights.wks = true
    ∧ board_get c2_position.board 7 5 = empty_square
    ∧ board_get c2_position.board 7 6 = empty_square
    ∧ search_for_attacks c2_position 7 5 'b' = false
    ∧ search_for_attacks c2_position 7 6 'b' = true
    ∧ get_king_side_castling_moves c2_position 7 4 [] = [c2_castle_move]
    ∧ c2_castle_move ∈ (get_all_valid_moves c2_position).2 := by
  decide

/-- C3: the promotion kind is not an input of `make_move`; it is read
from the interactive prompt inside the mutator.  The destination piece
is the mover's color joined with the uppercased prompt line: an empty
line yields a queen, but the line "X" yields the non-chess token "wX" —
no caller-supplied argument restricted to queen/rook/bishop/knight
exists. -/
theorem C3_promotion_read_from_prompt :
    c3_promotion_move ∈ (get_all_valid_moves c3_position).2
    ∧ c3_promotion_move.is_pawn_promotion = true
    ∧ board_get (make_move c3_position c3_promotion_move []).board 0 0
        = ['w', 'Q']
    ∧ board_get (make_move c3_position c3_promotion_move ['q']).board 0 0
        = ['w', 'Q']
    ∧ board_get (make_move c3_position c3_promotion_move ['X']).board 0 0
        = ['w', 'X'] := by
  decide

/-- C4: in the king-versus-king-and-pawn stalemate position the
returned move list is empty and in-check is false, but the stalemate
flag ends up `false`: the assignment made on the empty-move branch is
overwritten by the material classifier's verdict (a lone pawn is not a
material draw). -/
theorem C4_stalemate_flag_overwritten :
    (get_all_valid_moves c4_position).2 = []
    ∧ (get_all_valid_moves c4_position).1.current_player_is_in_check = false
    ∧ (get_all_valid_moves c4_position).1.stalemate = false
    ∧ (get_all_valid_moves c4_position).1.checkmate = false := by
  decide

/-- C6: a legal-move list containing a self-check move.  The position
after 1. f4 e6 2. Kf2 Qh4+ is reachable (every ply is in the legal-move
list of its position); white is in check, and `get_all_valid_moves`
still returns the king retreat Kf2-e1 — after applying it, the white
king (on e1) is attacked by the black queen along the h4-e1 diagonal,
which the relocation probe missed because the king was still on f2 on
the probed board. -/
theorem C6_self_check_move_generated :
    c6_move1 ∈ (get_all_valid_moves initial_game_state).2
    ∧ c6_move2 ∈ (get_all_valid_moves c6_pos1).2
    ∧ c6_move3 ∈ (get_all_valid_moves c6_pos2).2
    ∧ c6_move4 ∈ (get_all_valid_moves c6_pos3).2
    ∧ (get_all_valid_moves c6_position).1.current_player_is_in_check = true
    ∧ c6_king_retreat ∈ (get_all_valid_moves c6_position).2
    ∧ (make_move c6_position c6_king_retreat []).white_king_location = (7, 4)
    ∧ search_for_attacks (make_move c6_position c6_king_retreat []) 7 4 'b'
        = true := by
  decide

/-- C7: from the new-game position `get_all_valid_moves` returns
exactly 20 moves, and summing the sizes of the reply move lists over
those 20 first moves gives exactly 400. -/
theorem C7_perft_counts :
    (get_all_valid_moves initial_game_state).2.length = 20
    ∧ (let p := get_all_valid_moves initial_game_state
       (p.2.map (fun m =>
         (get_all_valid_moves (make_move p.1 m [])).2.length)).foldl (· + ·) 0)
      = 400 := by
  constructor
  · decide
  · decide

/-- C5 counterexample: on a board whose non-king material is three
bishops of both colors (and nothing else) the spec's case "any number
of bishops of both colors with no other pieces" applies, yet the
classifier returns `false`. -/
theorem C5_counterexample_three_bishops :
    active_pieces c5_three_bishops_board
      = [['w', 'B'], ['w', 'B'], ['b', 'B']]
    ∧ search_for_material_stalemate
        (mk_game_state c5_three_bishops_board true (7, 4) (0, 4)
          ⟨false, false, false, false⟩) = false := by
  decide

lemma pyListGet_in_range {α : Type} (l : List α) (i : Int) (d : α)
    (h0 : 0 ≤ i) (h1 : i < l.length) : pyListGet l i d = l.getD i.toNat d := by
  unfold pyListGet
  rw [if_pos ⟨h0, h1⟩]

lemma material_stalemate_board_eq (gs gs' : GameState)
    (h : gs.board = gs'.board) :
    search_for_material_stalemate gs = search_for_material_stalemate gs' := by
  unfold search_for_material_stalemate
  rw [h]

lemma classify_mates_board (gs : GameState) (moves : List Move) :
    (classify_mates gs moves).board = gs.board := by
  unfold classify_mates
  split
  · split <;> rfl
  · rfl

lemma set_material_stalemate_flag (gs : GameState) :
    (set_material_stalemate gs).stalemate = search_for_material_stalemate gs :=
  rfl

lemma finish_valid_moves_override (gs : GameState) (moves : List Move)
    (h : search_for_material_stalemate gs = true) :
    (finish_valid_moves gs moves).2 = []
    ∧ (finish_valid_moves gs moves).1.stalemate = true := by
  have hst : search_for_material_stalemate (classify_mates gs moves) = true :=
    (material_stalemate_board_eq _ gs (classify_mates_board gs moves)).trans h
  have hs : (set_material_stalemate (classify_mates gs moves)).stalemate = true := by
    rw [set_material_stalemate_flag]; exact hst
  unfold finish_valid_moves
  rw [hs]
  exact ⟨rfl, hs⟩

lemma get_all_valid_moves_as_finish (gs : GameState) :
    ∃ gs' moves, gs'.board = gs.board
      ∧ get_all_valid_moves gs = finish_valid_moves gs' moves := by
  refine ⟨_, _, ?_, rfl⟩
  rfl

lemma filter_filter_sub {α : Type} (p q : α → Bool)
    (h : ∀ a, q a = true → p a = true) :
    ∀ l : List α, (l.filter p).filter q = l.filter q := by
  intro l
  induction l with
  | nil => rfl
  | cons a l ih =>
    by_cases hq : q a = true
    · have hp := h a hq
      simp [List.filter_cons, hp, hq, ih]
    · by_cases hp : p a = true <;> simp [List.filter_cons, hp, hq, ih]

lemma is_bishop_cell_active (z : Int × Sq) (h : is_bishop_cell z = true) :
    is_active_square z.2 = true := by
  unfold is_bishop_cell at h
  unfold is_active_square
  simp only [beq_iff_eq] at h
  simp only [Bool.not_eq_true', Bool.or_eq_false_iff, beq_eq_false_iff_ne, ne_eq]
  constructor
  · rw [h]; decide
  · intro hz
    rw [hz] at h
    simp [sq1, empty_square] at h

lemma bishop_parity_step_found (p1 p2 : Int) (x : Int × Sq)
    (h : is_bishop_cell x = true) :
    bishop_parity_step (p1, true, p2) x = (p1, true, x.1) := by
  simp [bishop_parity_step, h]

lemma bishop_parity_step_fresh (p1 p2 : Int) (x : Int × Sq)
    (h : is_bishop_cell x = true) :
    bishop_parity_step (p1, false, p2) x = (x.1, true, p2) := by
  simp [bishop_parity_step, h]

lemma bishop_parity_step_skip (st : Int × Bool × Int) (x : Int × Sq)
    (h : is_bishop_cell x = false) :
    bishop_parity_step st x = st := by
  simp [bishop_parity_step, h]

lemma parity_fold_found (L : List (Int × Sq)) :
    ∀ p1 p2 : Int, L.foldl bishop_parity_step (p1, true, p2)
      = (p1, true, ((L.filter is_bishop_cell).map Prod.fst).getLastD p2) := by
  induction L with
  | nil => intro p1 p2; rfl
  | cons a L ih =>
    intro p1 p2
    cases hB : is_bishop_cell a with
    | true =>
      rw [List.foldl_cons, bishop_parity_step_found _ _ _ hB, ih,
        List.filter_cons_of_pos hB, List.map_cons, List.getLastD_cons]
    | false =>
      rw [List.foldl_cons, bishop_parity_step_skip _ _ hB, ih,
        List.filter_cons_of_neg (by rw [hB]; exact Bool.false_ne_true)]

lemma parity_fold_two (L : List (Int × Sq)) (x y : Int × Sq)
    (h : L.filter is_bishop_cell = [x, y]) :
    L.foldl bishop_parity_step (0, false, 0) = (x.1, true, y.1) := by
  induction L with
  | nil => simp at h
  | cons a L ih =>
    cases hB : is_bishop_cell a with
    | true =>
      rw [List.filter_cons_of_pos hB] at h
      obtain ⟨rfl, htail⟩ : a = x ∧ L.filter is_bishop_cell = [y] := by
        injection h with h1 h2
        exact ⟨h1, h2⟩
      rw [List.foldl_cons, bishop_parity_step_fresh _ _ _ hB,
        parity_fold_found, htail]
      rfl
    | false =>
      rw [List.filter_cons_of_neg (by rw [hB]; exact Bool.false_ne_true)] at h
      rw [List.foldl_cons, bishop_parity_step_skip _ _ hB]
      exact ih h

lemma bishop_parity_scan_two (b : Board) (x y : Int × Sq)
    (h : (board_cells b).filter is_bishop_cell = [x, y]) :
    bishop_parity_scan b = (x.1, true, y.1) :=
  parity_fold_two _ _ _ h

lemma active_two_filter (b : Board) (p q : Sq)
    (hap : active_pieces b = [p, q]) :
    ∃ x y, (board_cells b).filter (fun z => is_active_square z.2) = [x, y]
      ∧ x.2 = p ∧ y.2 = q := by
  unfold active_pieces at hap
  rcases hF : (board_cells b).filter (fun z => is_active_square z.2)
    with _ | ⟨x, _ | ⟨y, _ | ⟨w, rest⟩⟩⟩ <;>
    rw [hF] at hap <;> simp at hap
  exact ⟨x, y, hF, hap.1, hap.2⟩

lemma bishops_filter_two (b : Board) (p q : Sq)
    (hap : active_pieces b = [p, q]) (hp : sq1 p = 'B') (hq : sq1 q = 'B') :
    ∃ x y, (board_cells b).filter is_bishop_cell = [x, y]
      ∧ x.2 = p ∧ y.2 = q := by
  obtain ⟨x, y, hF, hx, hy⟩ := active_two_filter b p q hap
  have key : (board_cells b).filter is_bishop_cell
      = ((board_cells b).filter (fun z => is_active_square z.2)).filter
          is_bishop_cell :=
    (filter_filter_sub _ _ is_bishop_cell_active _).symm
  have hxB : is_bishop_cell x = true := by
    unfold is_bishop_cell
    rw [hx, hp]; decide
  have hyB : is_bishop_cell y = true := by
    unfold is_bishop_cell
    rw [hy, hq]; decide
  refine ⟨x, y, ?_, hx, hy⟩
  rw [key, hF]
  simp [List.filter_cons, hxB, hyB]

lemma wf_board_get (b : Board) (hwf : wf_board b = true) (r c : Nat)
    (hr : r < 8) (hc : c < 8) :
    valid_square_token (board_get b (r : Int) (c : Int)) = true := by
  unfold wf_board at hwf
  simp only [Bool.and_eq_true, beq_iff_eq, List.all_eq_true] at hwf
  obtain ⟨hlen, hrows⟩ := hwf
  have hrlt : r < b.length := by omega
  have h1 : pyListGet b (r : Int) [] = b[r] := by
    rw [pyListGet_in_range b _ _ (by positivity) (by exact_mod_cast hrlt),
      Int.toNat_ofNat, List.getD_eq_getElem b [] hrlt]
  obtain ⟨hrowlen, hsqs⟩ := hrows b[r] (List.getElem_mem hrlt)
  have hclt : c < b[r].length := by omega
  have h2 : pyListGet b[r] (c : Int) [] = b[r][c] := by
    rw [pyListGet_in_range _ _ _ (by positivity) (by exact_mod_cast hclt),
      Int.toNat_ofNat, List.getD_eq_getElem _ [] hclt]
  unfold board_get
  rw [h1, h2]
  exact hsqs b[r][c] (List.getElem_mem hclt)

lemma mem_board_cells (b : Board) (z : Int × Sq) (hz : z ∈ board_cells b) :
    ∃ r c : Nat, r < 8 ∧ c < 8 ∧ z = ((r : Int) + (c : Int), board_get b r c) := by
  unfold board_cells at hz
  obtain ⟨l, hl, hzl⟩ := List.mem_flatten.mp hz
  obtain ⟨r, hr, rfl⟩ := List.mem_map.mp hl
  obtain ⟨c, hc, rfl⟩ := List.mem_map.mp hzl
  exact ⟨r, c, List.mem_range.mp hr, List.mem_range.mp hc, rfl⟩

lemma valid_active_shape (s : Sq) (hv : valid_square_token s = true)
    (hact : is_active_square s = true) :
    ∃ cl k : Char, s = [cl, k] ∧ (cl = 'w' ∨ cl = 'b')
      ∧ (k = 'P' ∨ k = 'N' ∨ k = 'B' ∨ k = 'R' ∨ k = 'Q') := by
  unfold valid_square_token at hv
  simp only [Bool.or_eq_true, Bool.and_eq_true, beq_iff_eq] at hv
  unfold is_active_square at hact
  simp only [Bool.not_eq_true', Bool.or_eq_false_iff, beq_eq_false_iff_ne,
    ne_eq] at hact
  obtain ⟨hnk, hne⟩ := hact
  rcases hv with hv | ⟨⟨hlen2, hcl⟩, hk⟩
  · exact absurd hv hne
  · obtain ⟨a, b0, rfl⟩ := List.length_eq_two.mp hlen2
    refine ⟨a, b0, rfl, ?_, ?_⟩
    · simpa [sq0] using hcl
    · have hkk : b0 ≠ 'K' := by simpa [sq1] using hnk
      simp only [sq1, List.getD] at hk
      simp at hk
      tauto

lemma active_piece_shape (b : Board) (hwf : wf_board b = true) (s : Sq)
    (hs : s ∈ active_pieces b) :
    ∃ cl k : Char, s = [cl, k] ∧ (cl = 'w' ∨ cl = 'b')
      ∧ (k = 'P' ∨ k = 'N' ∨ k = 'B' ∨ k = 'R' ∨ k = 'Q') := by
  unfold active_pieces at hs
  simp only [List.mem_map, List.mem_filter] at hs
  obtain ⟨z, ⟨hzc, hza⟩, rfl⟩ := hs
  obtain ⟨r, c, hr, hc, rfl⟩ := mem_board_cells b z hzc
  exact valid_active_shape _ (wf_board_get b hwf r c hr hc) hza

set_option maxHeartbeats 2000000 in
lemma material_classifier_iff (gs : GameState)
    (hwf : wf_board gs.board = true) :
    search_for_material_stalemate gs = true ↔ material_draw_spec gs.board := by
  unfold search_for_material_stalemate material_draw_spec
  rcases hap : active_pieces gs.board with _ | ⟨p, _ | ⟨q, _ | ⟨z, rest⟩⟩⟩
  · simp [hap]
  · simp [hap]
  · -- exactly two non-king pieces
    have hp : p ∈ active_pieces gs.board := by rw [hap]; simp
    have hq : q ∈ active_pieces gs.board := by rw [hap]; simp
    obtain ⟨cp, kp, rfl, hcp, hkp⟩ := active_piece_shape _ hwf p hp
    obtain ⟨cq, kq, rfl, hcq, hkq⟩ := active_piece_shape _ hwf q hq
    by_cases hBB : kp = 'B' ∧ kq = 'B'
    · obtain ⟨rfl, rfl⟩ := hBB
      obtain ⟨x, y, hfil, hx, hy⟩ :=
        bishops_filter_two gs.board _ _ hap rfl rfl
      have hscan : bishop_parity_scan gs.board = (x.1, true, y.1) :=
        bishop_parity_scan_two _ _ _ hfil
      have hssc : same_square_color_bishops gs.board ↔ x.1 % 2 = y.1 % 2 := by
        unfold same_square_color_bishops
        constructor
        · rintro ⟨x', y', hf', hpar⟩
          rw [hfil] at hf'
          injection hf' with h1 h2
          injection h2 with h2 _
          subst h1
          subst h2
          exact hpar
        · intro hpar
          exact ⟨x, y, hfil, hpar⟩
      rcases hcp with rfl | rfl <;> rcases hcq with rfl | rfl <;>
        simp [hap, hscan, hssc, sq0, sq1]
      · constructor
        · intro h
          exact ⟨_, _, ⟨rfl, rfl⟩, Or.inl ⟨rfl, rfl, rfl, by omega⟩⟩
        · rintro ⟨p, q, ⟨rfl, rfl⟩, (⟨-, -, -, hpar⟩ | ⟨-, -, hcc⟩ | ⟨hN, -, -⟩)⟩
          · omega
          · exact absurd rfl hcc
          · exact absurd hN (by decide)
      · exact ⟨_, _, ⟨rfl, rfl⟩, Or.inr (Or.inl ⟨rfl, rfl, by decide⟩)⟩
      · exact ⟨_, _, ⟨rfl, rfl⟩, Or.inr (Or.inl ⟨rfl, rfl, by decide⟩)⟩
      · constructor
        · intro h
          exact ⟨_, _, ⟨rfl, rfl⟩, Or.inl ⟨rfl, rfl, rfl, by omega⟩⟩
        · rintro ⟨p, q, ⟨rfl, rfl⟩, (⟨-, -, -, hpar⟩ | ⟨-, -, hcc⟩ | ⟨hN, -, -⟩)⟩
          · omega
          · exact absurd rfl hcc
          · exact absurd hN (by decide)
    · by_cases hNN : kp = 'N' ∧ kq = 'N'
      · obtain ⟨rfl, rfl⟩ := hNN
        rcases hcp with rfl | rfl <;> rcases hcq with rfl | rfl <;>
          simp [hap, sq0, sq1]
        all_goals exact ⟨_, _, ⟨rfl, rfl⟩, Or.inr (Or.inr ⟨rfl, rfl, rfl⟩)⟩
      · rcases hkp with rfl | rfl | rfl | rfl | rfl <;>
          rcases hkq with rfl | rfl | rfl | rfl | rfl <;>
          simp_all [hap, sq0, sq1]
  · -- three or more non-king pieces
    simp [hap]

/-- C5 (amended): the material classifier declares a draw exactly when
the non-king material is empty, a single knight or bishop, or exactly
two pieces forming one of: two same-team bishops on same-color squares
(equal parity of row+col), two bishops of opposite teams, or two
same-team knights — never for three or more pieces; and whenever it
declares a draw, `get_all_valid_moves` returns an empty move list and
marks the position drawn, even if legal moves would otherwise
remain. -/
theorem C5_material_classifier_amended :
    (∀ gs : GameState, wf_board gs.board = true →
        (search_for_material_stalemate gs = true ↔ material_draw_spec gs.board))
    ∧ (∀ gs : GameState, search_for_material_stalemate gs = true →
        (get_all_valid_moves gs).2 = []
        ∧ (get_all_valid_moves gs).1.stalemate = true) := by
  constructor
  · exact material_classifier_iff
  · intro gs h
    obtain ⟨gs', mv, hb, he⟩ := get_all_valid_moves_as_finish gs
    rw [he]
    exact finish_valid_moves_override gs' mv
      ((material_stalemate_board_eq gs' gs hb).trans h)

/-- Witness for C5 at the king-and-knight-versus-king position. -/
theorem C5_material_classifier_amended_witness :
    (search_for_material_stalemate c5_knight_position = true
      ↔ material_draw_spec c5_knight_position.board)
    ∧ ((get_all_valid_moves c5_knight_position).2 = []
       ∧ (get_all_valid_moves c5_knight_position).1.stalemate = true) :=
  ⟨C5_material_classifier_amended.1 c5_knight_position (by decide),
   C5_material_classifier_amended.2 c5_knight_position (by decide)⟩
